import Mathlib

/-!
Shallow embedding of the metric-derivation and formatting pipeline of
`src/components/FlightMetrics.tsx` (the `FlightMetrics` component and the
`NavBar` component that shares the file). JavaScript numbers are modelled as
rationals (`ℚ`); `null`/`undefined` optional fields as `Option ℚ`; the
distinguished `undefined`/`NaN` inputs of `formatDuration` get their own
constructors. JavaScript truthiness of a numeric value (`0` is falsy) is
modelled by an explicit comparison with `0`.
-/

namespace Inflight

/-- Fuel-indexed decimal digit printer, most significant digit first.
With fuel above the digit count it agrees with JavaScript's
number-to-string coercion on natural numbers. -/
def natDigitsAux : Nat → Nat → List Char
  | 0, _ => []
  | fuel + 1, n =>
    if n < 10 then [Nat.digitChar n]
    else natDigitsAux fuel (n / 10) ++ [Nat.digitChar (n % 10)]

/-- Decimal digits of a natural number; `n + 1` fuel always suffices. -/
def natDigits (n : Nat) : List Char := natDigitsAux (n + 1) n

def natToStr (n : Nat) : String := ⟨natDigits n⟩

/-- Decimal rendering of an integer, as JavaScript prints integral numbers. -/
def intToStr (i : ℤ) : String :=
  if i < 0 then "-" ++ natToStr i.natAbs else natToStr i.natAbs

/-- Rendering of a rational used where the source interpolates a number into a
template string; it agrees with JavaScript on integral values (the only
values the claims evaluate concretely) and prints `num/den` otherwise. -/
def ratToStr (q : ℚ) : String :=
  if q.den = 1 then intToStr q.num
  else intToStr q.num ++ "/" ++ natToStr q.den

/-- A JavaScript `number | undefined` argument as received by
`formatDuration`: `undefined`, `NaN`, or a finite numeric value. -/
inductive JSNum where
  | undef : JSNum
  | nan : JSNum
  | num : ℚ → JSNum

/-- `formatDuration` from `FlightMetrics.tsx`: returns `"N/A"` for a missing
or `NaN` argument, otherwise clamps to `0` (`Math.max(0, mins)`), takes
`h = Math.floor(mins / 60)` and `m = mins % 60` (for a nonnegative operand
the JavaScript remainder is `mins - 60 * floor(mins / 60)`), and renders
the template with the hour segment present exactly when `0 < h`. -/
def formatDuration : JSNum → String
  | .undef => "N/A"
  | .nan => "N/A"
  | .num q =>
    (if 0 < ⌊max 0 q / 60⌋ then intToStr ⌊max 0 q / 60⌋ ++ " hr " else "")
      ++ ratToStr (max 0 q - 60 * (⌊max 0 q / 60⌋ : ℚ)) ++ " min"

/-- The `FlightData` snapshot fields used by the metric pipeline. -/
structure FlightData where
  groundspeed : ℚ
  altitude : ℚ
  heading : Option ℚ
  distanceToGo : Option ℚ
  latitude : ℚ
  longitude : ℚ

/-- The sixteen compass points in bearing order. -/
def compassPoints : List String :=
  ["N", "NNE", "NE", "ENE", "E", "ESE", "SE", "SSE",
   "S", "SSW", "SW", "WSW", "W", "WNW", "NW", "NNW"]

/-- Normalization of a bearing to the half-open interval `[0, 360)`. -/
def normalize360 (x : ℚ) : ℚ := x - 360 * ⌊x / 360⌋

/-- Modelled from the spec: `getCompassDirection` is imported from
`lib/utils`, which is not among the sources. Per the spec it maps a bearing
into one of 16 compass points using equal `22.5`-degree sectors centred on
each direction (the north sector being `[-11.25, 11.25)`), after normalizing
the input modulo `360`, including negative inputs. -/
def compassDirection (deg : ℚ) : String :=
  compassPoints.getD ((⌊(normalize360 deg + 45/4) / (45/2)⌋).toNat % 16) "N"

/-- `value` of the Heading metric:
`data.heading ? Math.abs(Math.floor(data.heading)) : null`.
JavaScript truthiness sends a heading of `0` (and `null`) to the
`null` branch; otherwise the floor is taken before the absolute value. -/
def headingPrimary (d : FlightData) : Option ℤ :=
  match d.heading with
  | none => none
  | some h => if h = 0 then none else some |⌊h⌋|

/-- `secondaryValue` of the Heading metric:
`data.heading ? getCompassDirection(data.heading) : null`. -/
def headingSecondary (d : FlightData) : Option String :=
  match d.heading with
  | none => none
  | some h => if h = 0 then none else some (compassDirection h)

/-- The `distanceToGo` local of `FlightMetrics`: the floored nautical-mile
value when the field is neither `null` nor `undefined`, else `null`. -/
def distanceToGoVar (d : FlightData) : Option ℤ :=
  match d.distanceToGo with
  | none => none
  | some q => some ⌊q⌋

/-- `value` of the Distance To Go metric: the floored local itself. -/
def distancePrimary (d : FlightData) : Option ℤ := distanceToGoVar d

/-- JavaScript `x.toFixed(0)` as an integer: the nearest integer, with ties
resolved toward positive infinity. -/
def jsToFixed0 (x : ℚ) : ℤ := ⌊x + 1/2⌋

/-- `secondaryValue` of the Distance To Go metric:
`distanceToGo ? (distanceToGo * 1.852).toFixed(0) : null`; truthiness sends
a floored distance of `0` (as well as `null`) to the `null` branch. -/
def distanceSecondary (d : FlightData) : Option ℤ :=
  match distanceToGoVar d with
  | none => none
  | some n => if n = 0 then none else some (jsToFixed0 ((n : ℚ) * 1.852))

/-- `wholeValue` of the Latitude metric: `Math.floor(Math.abs(lat))`. -/
def latWholeValue (d : FlightData) : ℤ := ⌊|d.latitude|⌋

/-- `decimalValue` of the Latitude metric:
`Math.floor((Math.abs(lat) % 1) * 1000)`; for a nonnegative operand the
JavaScript remainder `% 1` is the fractional part. -/
def latDecimalValue (d : FlightData) : ℤ :=
  ⌊(|d.latitude| - (⌊|d.latitude|⌋ : ℚ)) * 1000⌋

/-- `unit` of the Latitude metric: `lat >= 0 ? "°N" : "°S"`. -/
def latUnit (d : FlightData) : String :=
  if 0 ≤ d.latitude then "°N" else "°S"

/-- `wholeValue` of the Longitude metric. -/
def lonWholeValue (d : FlightData) : ℤ := ⌊|d.longitude|⌋

/-- `decimalValue` of the Longitude metric. -/
def lonDecimalValue (d : FlightData) : ℤ :=
  ⌊(|d.longitude| - (⌊|d.longitude|⌋ : ℚ)) * 1000⌋

/-- `unit` of the Longitude metric: `lon >= 0 ? "°E" : "°W"`. -/
def lonUnit (d : FlightData) : String :=
  if 0 ≤ d.longitude then "°E" else "°W"

/-- The `percent` local of `NavBar`: the clamped progress ratio when both
durations are numbers and the flight duration is positive, else `0`. -/
def percent (flightDuration timeToGo : Option ℚ) : ℚ :=
  match flightDuration, timeToGo with
  | some fd, some ttg =>
    if 0 < fd then max 0 (min 100 ((fd - ttg) / fd * 100)) else 0
  | _, _ => 0

/-- JavaScript `a || b` on an optional string: `undefined` and `""` are
falsy, so both fall back to the default. -/
def jsOrDefault (s : Option String) (dflt : String) : String :=
  match s with
  | none => dflt
  | some v => if v = "" then dflt else v

/-- `handleExport` of `NavBar`: returns the arguments handed to the export
boundary — the snapshot list given to `convertToGPX` and the filename given
to `downloadGPX` — or `none` when the early `return` on an empty list fires.
The function has no error path; `convertToGPX`/`downloadGPX` (from
`utils/gpx`, outside the sources) are modelled only by the call/no-call
decision and the arguments they would receive. -/
def handleExport (flightData : List FlightData) (flightNumber : Option String) :
    Option (List FlightData × String) :=
  if flightData.length = 0 then none
  else some (flightData, jsOrDefault flightNumber "flight")

/-- A snapshot with every optional field absent and every number zero. -/
def baseData : FlightData :=
  { groundspeed := 0, altitude := 0, heading := none, distanceToGo := none,
    latitude := 0, longitude := 0 }

/-- Snapshot with heading `-10.5`. -/
def exHeadingNeg : FlightData := { baseData with heading := some (-(21/2)) }

/-- Snapshot with heading exactly `0`. -/
def exHeadingZero : FlightData := { baseData with heading := some 0 }

/-- Snapshot with `distanceToGo = 0`. -/
def exDistZero : FlightData := { baseData with distanceToGo := some 0 }

/-- Snapshot with `distanceToGo = 123.7`. -/
def exDist1237 : FlightData := { baseData with distanceToGo := some (1237/10) }

/-- Snapshot with latitude `-33.8765`. -/
def exLat : FlightData := { baseData with latitude := -(67753/2000) }

theorem strData_append (s t : String) : (s ++ t).data = s.data ++ t.data := by
  cases s; cases t; rfl

theorem digitChar_ne_h (m : Nat) (hm : m < 10) : Nat.digitChar m ≠ 'h' := by
  interval_cases m <;> decide

theorem natDigitsAux_ne_h : ∀ fuel n : Nat, 'h' ∉ natDigitsAux fuel n := by
  intro fuel
  induction fuel with
  | zero => intro n; simp [natDigitsAux]
  | succ f ih =>
    intro n
    simp only [natDigitsAux]
    split
    · intro hmem
      rw [List.mem_singleton] at hmem
      exact digitChar_ne_h n (by assumption) hmem.symm
    · intro hmem
      rcases List.mem_append.1 hmem with h1 | h2
      · exact ih (n / 10) h1
      · rw [List.mem_singleton] at h2
        exact digitChar_ne_h (n % 10) (Nat.mod_lt _ (by norm_num)) h2.symm

theorem natToStr_ne_h (n : Nat) : 'h' ∉ (natToStr n).data :=
  natDigitsAux_ne_h (n + 1) n

theorem intToStr_ne_h (i : ℤ) : 'h' ∉ (intToStr i).data := by
  unfold intToStr
  split
  · rw [strData_append]
    intro hmem
    rcases List.mem_append.1 hmem with h1 | h2
    · exact absurd h1 (by decide)
    · exact natToStr_ne_h _ h2
  · exact natToStr_ne_h _

theorem ratToStr_ne_h (q : ℚ) : 'h' ∉ (ratToStr q).data := by
  unfold ratToStr
  split
  · exact intToStr_ne_h _
  · rw [strData_append, strData_append]
    intro hmem
    rcases List.mem_append.1 hmem with h1 | h2
    · rcases List.mem_append.1 h1 with h3 | h4
      · exact intToStr_ne_h _ h3
      · exact absurd h4 (by decide)
    · exact natToStr_ne_h _ h2

theorem no_hr_of_ne_h {l : List Char} (hl : 'h' ∉ l) : ¬ ("hr".data <:+: l) := by
  intro hinf
  exact hl (hinf.subset (by decide))

theorem floor_frac_bounds (x : ℚ) :
    0 ≤ ⌊(x - (⌊x⌋ : ℚ)) * 1000⌋ ∧ ⌊(x - (⌊x⌋ : ℚ)) * 1000⌋ ≤ 999 := by
  have h0 : (0 : ℚ) ≤ x - ⌊x⌋ := by
    have := Int.floor_le x
    linarith
  have h1 : x - (⌊x⌋ : ℚ) < 1 := by
    have := Int.lt_floor_add_one x
    linarith
  constructor
  · exact Int.floor_nonneg.mpr (by nlinarith)
  · have h2 : ⌊(x - (⌊x⌋ : ℚ)) * 1000⌋ < 1000 := by
      apply Int.floor_lt.mpr
      push_cast
      nlinarith
    omega

/-- Claim C1, counterexample: the claim's primary formula `floor(abs(heading))`
disagrees with the code at heading `-10.5` (code yields `11`, the claim `10`),
and at heading `0` the code yields `null` though the claim's otherwise-branch
demands `floor(abs(0)) = 0`. -/
theorem heading_claim_cex :
    headingPrimary exHeadingNeg = some 11 ∧
    (some 11 : Option ℤ) ≠ some ⌊|(-(21/2) : ℚ)|⌋ ∧
    headingPrimary exHeadingZero = none ∧
    (none : Option ℤ) ≠ some ⌊|(0 : ℚ)|⌋ := by
  refine ⟨?_, ?_, ?_, by simp⟩
  · rw [show headingPrimary exHeadingNeg
        = some |⌊(-(21/2) : ℚ)⌋| by norm_num [headingPrimary, exHeadingNeg, baseData]]
    rw [show ⌊(-(21/2) : ℚ)⌋ = -11 by norm_num]
    decide
  · rw [abs_of_nonpos (by norm_num)]
    norm_num
  · norm_num [headingPrimary, exHeadingZero, baseData]

/-- Claim C1, amended: if heading is null/absent or `0` (JavaScript-falsy),
the Heading metric has primary = null and secondary = null; otherwise
primary = abs(floor(heading)) — floor before absolute value, which agrees
with floor(abs(heading)) on integral headings such as `-10 ↦ 10` but not on
`-10.5 ↦ 11` — and secondary = compassDirection(heading). -/
theorem heading_metric_amended (d : FlightData) :
    (d.heading = none → headingPrimary d = none ∧ headingSecondary d = none) ∧
    (d.heading = some 0 → headingPrimary d = none ∧ headingSecondary d = none) ∧
    (∀ h : ℚ, d.heading = some h → h ≠ 0 →
      headingPrimary d = some |⌊h⌋| ∧
      headingSecondary d = some (compassDirection h)) := by
  refine ⟨?_, ?_, ?_⟩
  · intro hd
    simp [headingPrimary, headingSecondary, hd]
  · intro hd
    simp [headingPrimary, headingSecondary, hd]
  · intro h hd hne
    simp [headingPrimary, headingSecondary, hd, hne]

/-- Witness for the amended claim C1 at heading `-10.5`. -/
theorem heading_metric_amended_witness :
    headingPrimary exHeadingNeg = some 11 ∧
    headingSecondary exHeadingNeg = some (compassDirection (-(21/2))) := by
  have hm := (heading_metric_amended exHeadingNeg).2.2 (-(21/2)) rfl (by norm_num)
  refine ⟨?_, hm.2⟩
  rw [hm.1, show ⌊(-(21/2) : ℚ)⌋ = -11 by norm_num]
  decide

/-- Claim C8: a heading of exactly `0` (due north) renders as unavailable —
both primary and secondary are null — because availability is decided by
JavaScript truthiness of the heading value. -/
theorem heading_zero_unavailable (d : FlightData) (h0 : d.heading = some 0) :
    headingPrimary d = none ∧ headingSecondary d = none := by
  simp [headingPrimary, headingSecondary, h0]

/-- Witness for claim C8 at the zero-heading snapshot. -/
theorem heading_zero_unavailable_witness :
    headingPrimary exHeadingZero = none ∧ headingSecondary exHeadingZero = none :=
  heading_zero_unavailable exHeadingZero rfl

/-- Claim C2, counterexample: at `distanceToGo = 0` the code yields
primary = `0` but secondary = null, while the claim's otherwise-branch
demands secondary = round(0 * 1.852) = `0`. -/
theorem distance_claim_cex :
    distancePrimary exDistZero = some 0 ∧
    distanceSecondary exDistZero = none ∧
    (none : Option ℤ) ≠ some (jsToFixed0 ((0 : ℚ) * 1.852)) := by
  refine ⟨?_, ?_, by simp⟩
  · norm_num [distancePrimary, distanceToGoVar, exDistZero, baseData]
  · norm_num [distanceSecondary, distanceToGoVar, exDistZero, baseData]

/-- Claim C2, amended: if distanceToGo is null/undefined, primary and
secondary are both null; otherwise primary = floor(distanceToGo), and
secondary = floor(distanceToGo) * 1.852 rounded to 0 decimals except when
the floored value is `0`, where JavaScript truthiness makes secondary null. -/
theorem distance_metric_amended (d : FlightData) :
    (d.distanceToGo = none → distancePrimary d = none ∧ distanceSecondary d = none) ∧
    (∀ q : ℚ, d.distanceToGo = some q →
      distancePrimary d = some ⌊q⌋ ∧
      distanceSecondary d =
        if ⌊q⌋ = 0 then none else some (jsToFixed0 ((⌊q⌋ : ℚ) * 1.852))) := by
  constructor
  · intro hd
    simp [distancePrimary, distanceToGoVar, distanceSecondary, hd]
  · intro q hd
    simp [distancePrimary, distanceToGoVar, distanceSecondary, hd]

/-- Witness for the amended claim C2 at `distanceToGo = 123.7`:
primary `123`, secondary `round(123 * 1.852) = 228`. -/
theorem distance_metric_amended_witness :
    distancePrimary exDist1237 = some 123 ∧
    distanceSecondary exDist1237 = some 228 := by
  have hm := (distance_metric_amended exDist1237).2 (1237/10) rfl
  have hfl : ⌊(1237/10 : ℚ)⌋ = 123 := by norm_num
  constructor
  · rw [hm.1, hfl]
  · rw [hm.2, hfl]
    norm_num [jsToFixed0]

/-- Claim C9: at `distanceToGo = 0` the Distance To Go metric keeps
primary = `0` (the null-check on the field is explicit) but loses its km
companion: secondary = null, because the secondary conversion is guarded by
truthiness of the floored value. -/
theorem distance_zero_secondary (d : FlightData) (h0 : d.distanceToGo = some 0) :
    distancePrimary d = some 0 ∧ distanceSecondary d = none := by
  simp [distancePrimary, distanceToGoVar, distanceSecondary, h0]

/-- Witness for claim C9 at the zero-distance snapshot. -/
theorem distance_zero_secondary_witness :
    distancePrimary exDistZero = some 0 ∧ distanceSecondary exDistZero = none :=
  distance_zero_secondary exDistZero rfl

/-- Claim C3: each coordinate metric decomposes its value into
wholePart = floor(abs(value)) and fractionalPart = floor((abs(value) mod 1)
* 1000), a truncated integer in `[0, 999]`; the hemisphere unit is `°N`
(resp. `°E`) exactly when the coordinate is nonnegative — zero counts as the
positive hemisphere — and `°S` (resp. `°W`) otherwise; at latitude
`-33.8765` the decomposition is wholePart `33`, fractionalPart `876`,
unit `"°S"`. -/
theorem coordinate_metrics_spec :
    (∀ d : FlightData,
      latWholeValue d = ⌊|d.latitude|⌋ ∧
      lonWholeValue d = ⌊|d.longitude|⌋ ∧
      latDecimalValue d = ⌊(|d.latitude| - (⌊|d.latitude|⌋ : ℚ)) * 1000⌋ ∧
      lonDecimalValue d = ⌊(|d.longitude| - (⌊|d.longitude|⌋ : ℚ)) * 1000⌋ ∧
      0 ≤ latDecimalValue d ∧ latDecimalValue d ≤ 999 ∧
      0 ≤ lonDecimalValue d ∧ lonDecimalValue d ≤ 999 ∧
      latUnit d = (if 0 ≤ d.latitude then "°N" else "°S") ∧
      lonUnit d = (if 0 ≤ d.longitude then "°E" else "°W")) ∧
    latWholeValue exLat = 33 ∧ latDecimalValue exLat = 876 ∧ latUnit exLat = "°S" := by
  refine ⟨?_, ?_, ?_, ?_⟩
  · intro d
    exact ⟨rfl, rfl, rfl, rfl,
      (floor_frac_bounds |d.latitude|).1, (floor_frac_bounds |d.latitude|).2,
      (floor_frac_bounds |d.longitude|).1, (floor_frac_bounds |d.longitude|).2,
      rfl, rfl⟩
  · show ⌊|(-(67753/2000) : ℚ)|⌋ = 33
    rw [abs_of_nonpos (by norm_num)]
    norm_num
  · show ⌊(|(-(67753/2000) : ℚ)| - (⌊|(-(67753/2000) : ℚ)|⌋ : ℚ)) * 1000⌋ = 876
    rw [abs_of_nonpos (by norm_num)]
    norm_num
  · show (if (0 : ℚ) ≤ -(67753/2000) then "°N" else "°S") = "°S"
    norm_num

/-- Claim C4: `formatDuration` is total and returns `"N/A"` for a missing or
`NaN` argument; a numeric argument is clamped below at `0` (so `-5` renders
like `0`), and a nonnegative argument renders as the template
`"<h> hr <m> min"` with `h = floor(mins / 60)`, `m = mins mod 60`, the hour
segment omitted exactly when `h = 0`. -/
theorem formatDuration_spec :
    formatDuration .undef = "N/A" ∧
    formatDuration .nan = "N/A" ∧
    formatDuration (.num (-5)) = formatDuration (.num 0) ∧
    (∀ q : ℚ, q ≤ 0 → formatDuration (.num q) = formatDuration (.num 0)) ∧
    (∀ q : ℚ, 0 ≤ q →
      formatDuration (.num q) =
        (if 0 < ⌊q / 60⌋ then intToStr ⌊q / 60⌋ ++ " hr " else "")
          ++ ratToStr (q - 60 * (⌊q / 60⌋ : ℚ)) ++ " min") := by
  have hclamp : ∀ q : ℚ, q ≤ 0 → formatDuration (.num q) = formatDuration (.num 0) := by
    intro q hq
    simp only [formatDuration, max_eq_left hq, max_self]
  refine ⟨rfl, rfl, hclamp (-5) (by norm_num), hclamp, ?_⟩
  intro q hq
  simp only [formatDuration, max_eq_right hq]

/-- Witness for claim C4: the render equation at `90` minutes evaluates to
`"1 hr 30 min"`, and the clamp equation holds at `-7`. -/
theorem formatDuration_spec_witness :
    formatDuration (.num 90) = "1 hr 30 min" ∧
    formatDuration (.num (-7)) = formatDuration (.num 0) := by
  constructor
  · rw [formatDuration_spec.2.2.2.2 90 (by norm_num)]
    rw [show ⌊(90 : ℚ) / 60⌋ = 1 by norm_num]
    rw [show (90 : ℚ) - 60 * ((1 : ℤ) : ℚ) = 30 by norm_num]
    decide
  · exact formatDuration_spec.2.2.2.1 (-7) (by norm_num)

/-- Claim C6: the compass bucketing is periodic with period 360 — it
normalizes its input modulo 360 before bucketing, so adding any whole number
of turns, also to a negative heading, does not change the compass point. -/
theorem compassDirection_periodic (h : ℚ) (k : ℤ) :
    compassDirection h = compassDirection (h + 360 * k) := by
  have hdiv : (h + 360 * k) / 360 = h / 360 + k := by
    field_simp
    ring
  have hnorm : normalize360 (h + 360 * k) = normalize360 h := by
    unfold normalize360
    rw [hdiv, Int.floor_add_int]
    push_cast
    ring
  unfold compassDirection
  rw [hnorm]

/-- Claim C7: `handleExport` on an empty snapshot list is a silent no-op —
the early `return` fires before any GPX document is built or any download is
requested, and there is no error path. -/
theorem export_empty_noop (flightNumber : Option String) :
    handleExport [] flightNumber = none := rfl

/-- Claim C10: the route-progress percentage is always within `[0, 100]`;
it equals the clamped ratio `((flightDuration - timeToGo) / flightDuration)
* 100` when both durations are numbers and the flight duration is positive,
and it is exactly `0` whenever either duration is missing or the flight
duration is not positive, so the division never sees a zero, negative, or
non-numeric denominator. -/
theorem percent_spec :
    (∀ fd ttg : Option ℚ, 0 ≤ percent fd ttg ∧ percent fd ttg ≤ 100) ∧
    (∀ a b : ℚ, 0 < a →
      percent (some a) (some b) = max 0 (min 100 ((a - b) / a * 100))) ∧
    (∀ a b : ℚ, a ≤ 0 → percent (some a) (some b) = 0) ∧
    (∀ o : Option ℚ, percent none o = 0 ∧ percent o none = 0) := by
  refine ⟨?_, ?_, ?_, ?_⟩
  · intro fd ttg
    rcases fd with _ | a
    · simp [percent]
    · rcases ttg with _ | b
      · simp [percent]
      · by_cases ha : 0 < a
        · simp only [percent, if_pos ha]
          exact ⟨le_max_left _ _, max_le (by norm_num) (min_le_left _ _)⟩
        · simp [percent, ha]
  · intro a b ha
    simp [percent, ha]
  · intro a b ha
    simp [percent, not_lt.2 ha]
  · intro o
    cases o <;> simp [percent]

/-- Witness for claim C10: a flight of 120 minutes with 30 to go is 75
percent complete. -/
theorem percent_spec_witness : percent (some 120) (some 30) = 75 := by
  rw [percent_spec.2.1 120 30 (by norm_num)]
  norm_num

/-- Claim C5: for every number of minutes `m ≥ 0`, the rendered duration
contains the substring `"hr"` exactly when `floor(m / 60) > 0`. -/
theorem formatDuration_hr_iff (m : ℚ) (hm : 0 ≤ m) :
    ("hr".data <:+: (formatDuration (.num m)).data) ↔ 0 < ⌊m / 60⌋ := by
  have hmax : max (0 : ℚ) m = m := max_eq_right hm
  by_cases hpos : 0 < ⌊m / 60⌋
  · simp only [formatDuration, hmax, if_pos hpos]
    refine ⟨fun _ => hpos, fun _ => ?_⟩
    refine ⟨(intToStr ⌊m / 60⌋).data ++ [' '],
      [' '] ++ (ratToStr (m - 60 * (⌊m / 60⌋ : ℚ))).data ++ (" min").data, ?_⟩
    simp only [strData_append,
      show (" hr ").data = [' ', 'h', 'r', ' '] from rfl,
      show ("hr").data = ['h', 'r'] from rfl]
    simp [List.append_assoc]
  · simp only [formatDuration, hmax, if_neg hpos]
    refine ⟨fun hinf => absurd ?_ hpos, fun hc => absurd hc hpos⟩
    exfalso
    refine no_hr_of_ne_h ?_ hinf
    simp only [strData_append]
    intro hmem
    rcases List.mem_append.1 hmem with h1 | h2
    · rcases List.mem_append.1 h1 with h3 | h4
      · exact absurd h3 (by decide)
      · exact ratToStr_ne_h _ h4
    · exact absurd h2 (by decide)

/-- Witness for claim C5: at `90` minutes the string contains `"hr"`, at
`30` it does not. -/
theorem formatDuration_hr_iff_witness :
    ("hr".data <:+: (formatDuration (.num 90)).data) ∧
    ¬ ("hr".data <:+: (formatDuration (.num 30)).data) := by
  constructor
  · exact (formatDuration_hr_iff 90 (by norm_num)).mpr (by norm_num)
  · intro hc
    have h30 : (0 : ℤ) < ⌊(30 : ℚ) / 60⌋ := (formatDuration_hr_iff 30 (by norm_num)).mp hc
    rw [show ⌊(30 : ℚ) / 60⌋ = 0 by norm_num] at h30
    exact absurd h30 (by norm_num)

end Inflight
